import Mathlib

/-!
Verification of the Wayland bootstrap and pixel-format negotiation of swww,
shallowly embedded from `src/daemon/src/wayland/globals.rs` and
`src/utils/src/ipc.rs`.

Modelling notes:
* The `[u32; 4]` array `global_names` is embedded as a structure with one
  field per index (0 = wl_compositor, 1 = wl_shm, 2 = wp_viewporter,
  3 = zwlr_layer_shell_v1); the source's index loops over `REQUIRED_GLOBALS`
  are unrolled in the same order, preserving first-match / first-missing
  semantics.
* The process-wide statics (`WAYLAND_FD`, `OBJECT_MANAGER`, `PIXEL_FORMAT`,
  `FRACTIONAL_SCALE_SUPPORT`, `INITIALIZED`) are gathered in `ProcState` and
  threaded explicitly.
* Incoming wire messages are embedded as `(sender, decoded event)` pairs; the
  per-interface decoders are external to this subsystem, so each message
  directly carries the handler call its decoder would produce.  A message
  whose event does not belong to the interface dispatched by its sender is a
  decode failure (`Fatal.decodeFail`).
* Every `panic!` of the source becomes a `Fatal` value; `recv()` on an
  exhausted message list becomes `Fatal.outOfMessages` (a transport failure,
  which the source also treats as fatal via `unwrap`).
* Requests sent on the socket are collected in a `List Request` trace.
-/

/-- Pixel formats, from `utils/src/ipc.rs` (`PixelFormat`): `Bgr` needs no
swap and no padding, `Rgb` needs a swap, `Xbgr` needs padding, `Xrgb` needs
both (it is the initial default of the `PIXEL_FORMAT` static). -/
inductive PixelFormat
  | Bgr
  | Rgb
  | Xbgr
  | Xrgb
deriving DecidableEq, Repr

/-- The `[u32; 4]` array `global_names` of `Initializer`, one field per
index, in the order of `REQUIRED_GLOBALS`. -/
structure GlobalNames where
  compositor : Nat
  shm : Nat
  viewporter : Nat
  layerShell : Nat
deriving DecidableEq, Repr

/-- The `Initializer` struct of `globals.rs`. -/
structure Initializer where
  global_names : GlobalNames
  output_names : List Nat
  fractional_scale : Option (Nat × Nat)
  forced_shm_format : Bool
  should_exit : Bool
deriving DecidableEq, Repr

/-- The process-wide statics of `globals.rs` gathered in one record. -/
structure ProcState where
  wayland_fd : Option Nat
  object_manager : Bool
  pixel_format : PixelFormat
  fractional_scale_support : Bool
  initialized : Bool
deriving DecidableEq, Repr

/-- The process-wide state before the first call to `init`: no socket, no
object manager, `PIXEL_FORMAT = Xrgb`, no fractional scale support. -/
def initialProc : ProcState :=
  { wayland_fd := none
    object_manager := false
    pixel_format := PixelFormat.Xrgb
    fractional_scale_support := false
    initialized := false }

/-- Decoded events, one constructor per handler method implemented by
`Initializer` in `globals.rs` (the decoders themselves are external). -/
inductive Event
  | displayDeleteId (id : Nat)
  | callbackDone (data : Nat)
  | registryGlobal (name : Nat) (interface : String) (version : Nat)
  | registryGlobalRemove (name : Nat)
  | shmFormat (format : Nat)
deriving DecidableEq, Repr

/-- One incoming wire message: sender object id plus decoded event. -/
structure Msg where
  sender : Nat
  ev : Event
deriving DecidableEq, Repr

/-- Requests `init` sends on the socket, in order. -/
inductive Request
  | getRegistry
  | sync (callbackId : Nat)
  | bind (name : Nat) (id : Nat) (interface : String) (version : Nat)
deriving DecidableEq, Repr

/-- The fatal conditions (panics / unwraps) of `globals.rs`. -/
inductive Fatal
  | unexpectedSender
  | missingGlobal (interface : String)
  | versionTooLow (interface : String) (minVersion : Nat)
  | objectRemoved
  | globalRemoved
  | invalidName
  | decodeFail
  | outOfMessages
deriving DecidableEq, Repr

/-- The human-readable line each fatal condition prints, from the source's
`panic!` format strings (the last three have no format string in
`globals.rs`: they come from `unwrap`/`expect` on external calls). -/
def Fatal.message : Fatal → String
  | .unexpectedSender => "Did not receive expected global events from registry"
  | .missingGlobal interface =>
      "Compositor does not implement required interface: " ++ interface
  | .versionTooLow interface minVersion =>
      interface ++ " version must be at least " ++ toString minVersion ++ " for swww"
  | .objectRemoved =>
      "ObjectId removed during initialization! This should be very rare, which is why we don't deal with it"
  | .globalRemoved =>
      "Global removed during initialization! This should be very rare, which is why we don't deal with it"
  | .invalidName => "called `Result::unwrap()` on an `Err` value"
  | .decodeFail => "unknown event opcode for sender interface"
  | .outOfMessages => "failed to receive message from socket"

/-- Decidable equality for `Except`, needed to evaluate the model's fallible
functions on concrete inputs. -/
instance {ε α : Type} [DecidableEq ε] [DecidableEq α] : DecidableEq (Except ε α) := fun a b =>
  match a, b with
  | .ok x, .ok y =>
    if h : x = y then .isTrue (by rw [h])
    else .isFalse (by intro hc; cases hc; exact h rfl)
  | .ok _, .error _ => .isFalse (by intro hc; cases hc)
  | .error _, .ok _ => .isFalse (by intro hc; cases hc)
  | .error x, .error y =>
    if h : x = y then .isTrue (by rw [h])
    else .isFalse (by intro hc; cases hc; exact h rfl)

/-- `REQUIRED_GLOBALS` from `globals.rs`. -/
def REQUIRED_GLOBALS : List String :=
  ["wl_compositor", "wl_shm", "wp_viewporter", "zwlr_layer_shell_v1"]

/-- `VERSIONS` from `globals.rs`. -/
def VERSIONS : List Nat := [4, 1, 1, 3]

/-- `IDS` from `init`: the fixed object ids bound to the four mandatory
globals. -/
def IDS : List Nat := [3, 4, 5, 6]

/-- Modelled from the spec: the shared-memory format code for the
padded-and-swapped layout.  The four codes live in the external
per-interface codec module (`interfaces::wl_shm::format`, not under `src/`);
only their pairwise distinctness matters to this subsystem. -/
def XRGB8888 : Nat := 1

/-- Modelled from the spec: format code for the unswapped-padded layout. -/
def XBGR8888 : Nat := 0x34324258

/-- Modelled from the spec: format code for the swapped-unpadded layout. -/
def RGB888 : Nat := 0x34324752

/-- Modelled from the spec: format code for the unswapped-unpadded (best)
layout. -/
def BGR888 : Nat := 0x34324742

/-- `Initializer::new` from `globals.rs`. -/
def Initializer.new (cli_format : Option PixelFormat) : Initializer :=
  { global_names := ⟨0, 0, 0, 0⟩
    output_names := []
    fractional_scale := none
    forced_shm_format := cli_format.isSome
    should_exit := false }

/-- `Initializer::callback_id` from `globals.rs`: 8 when the fractional
scale manager was recorded, 7 otherwise. -/
def Initializer.callback_id (ini : Initializer) : Nat :=
  if ini.fractional_scale.isSome then 8 else 7

/-- `wl_display::EvHandler::delete_id` for `Initializer`: accept id 3 (the
first round-trip callback) or the phase-2 callback id matching the current
fractional-scale record, otherwise panic. -/
def Initializer.delete_id (ini : Initializer) (id : Nat) : Except Fatal Initializer :=
  if id == 3 || ini.fractional_scale.isNone && id == 7
      || ini.fractional_scale.isSome && id == 8 then
    .ok { ini with should_exit := true }
  else
    .error .objectRemoved

/-- `wl_registry::EvHandler::global` for `Initializer`.  The source's loop
over `REQUIRED_GLOBALS` (first match wins, panic below the version floor) is
unrolled in order; `name.try_into().unwrap()` into `NonZeroU32` fails on a
zero fractional-scale name. -/
def Initializer.global (ini : Initializer) (name : Nat) (interface : String)
    (version : Nat) : Except Fatal Initializer :=
  if interface = "wp_fractional_scale_manager_v1" then
    if name = 0 then .error .invalidName
    else .ok { ini with fractional_scale := some (7, name) }
  else if interface = "wl_output" then
    if version < 4 then .ok ini
    else .ok { ini with output_names := ini.output_names ++ [name] }
  else if interface = "wl_compositor" then
    if version < 4 then .error (.versionTooLow interface 4)
    else .ok { ini with global_names := { ini.global_names with compositor := name } }
  else if interface = "wl_shm" then
    if version < 1 then .error (.versionTooLow interface 1)
    else .ok { ini with global_names := { ini.global_names with shm := name } }
  else if interface = "wp_viewporter" then
    if version < 1 then .error (.versionTooLow interface 1)
    else .ok { ini with global_names := { ini.global_names with viewporter := name } }
  else if interface = "zwlr_layer_shell_v1" then
    if version < 3 then .error (.versionTooLow interface 3)
    else .ok { ini with global_names := { ini.global_names with layerShell := name } }
  else
    .ok ini

/-- `wl_shm::EvHandler::format` for `Initializer`: refine the tentative
pixel-format decision unless a format was forced; unrecognized codes are
ignored. -/
def Initializer.format (ini : Initializer) (ps : ProcState) (format : Nat) : ProcState :=
  if format = XRGB8888 then ps
  else if format = XBGR8888 then
    if ini.forced_shm_format = false ∧ ps.pixel_format = PixelFormat.Xrgb then
      { ps with pixel_format := PixelFormat.Xbgr }
    else ps
  else if format = RGB888 then
    if ini.forced_shm_format = false ∧ ps.pixel_format ≠ PixelFormat.Bgr then
      { ps with pixel_format := PixelFormat.Rgb }
    else ps
  else if format = BGR888 then
    if ini.forced_shm_format = false then
      { ps with pixel_format := PixelFormat.Bgr }
    else ps
  else ps

/-- Phase-1 dispatch of one message, from the first receive loop of `init`:
sender 3 is the sync callback, 1 the display, 2 the registry; anything else
panics (`Did not receive expected global events from registry`). -/
def phase1Step (ini : Initializer) (ps : ProcState) (m : Msg) :
    Except Fatal (Initializer × ProcState) :=
  if m.sender = 3 then
    match m.ev with
    | .callbackDone _ => .ok (ini, ps)
    | _ => .error .decodeFail
  else if m.sender = 1 then
    match m.ev with
    | .displayDeleteId id =>
      match ini.delete_id id with
      | .error e => .error e
      | .ok ini' => .ok (ini', ps)
    | _ => .error .decodeFail
  else if m.sender = 2 then
    match m.ev with
    | .registryGlobal name interface version =>
      match ini.global name interface version with
      | .error e => .error e
      | .ok ini' => .ok (ini', ps)
    | .registryGlobalRemove _ => .error .globalRemoved
    | _ => .error .decodeFail
  else
    .error .unexpectedSender

/-- The phase-1 receive loop of `init`: receive and dispatch until
`should_exit`; an exhausted message list is a failed `recv`. -/
def phase1Loop : List Msg → Initializer → ProcState →
    Except Fatal (Initializer × ProcState × List Msg)
  | msgs, ini, ps =>
    if ini.should_exit then .ok (ini, ps, msgs)
    else
      match msgs with
      | [] => .error .outOfMessages
      | m :: rest =>
        match phase1Step ini ps m with
        | .error e => .error e
        | .ok (ini', ps') => phase1Loop rest ini' ps'

/-- Phase-2 dispatch of one message, from the second receive loop of `init`:
display, registry and shm are dispatched; the captured phase-2 callback id
is dispatched to the callback handler; any other sender is logged and
tolerated. -/
def phase2Step (cid : Nat) (ini : Initializer) (ps : ProcState) (m : Msg) :
    Except Fatal (Initializer × ProcState) :=
  if m.sender = 1 then
    match m.ev with
    | .displayDeleteId id =>
      match ini.delete_id id with
      | .error e => .error e
      | .ok ini' => .ok (ini', ps)
    | _ => .error .decodeFail
  else if m.sender = 2 then
    match m.ev with
    | .registryGlobal name interface version =>
      match ini.global name interface version with
      | .error e => .error e
      | .ok ini' => .ok (ini', ps)
    | .registryGlobalRemove _ => .error .globalRemoved
    | _ => .error .decodeFail
  else if m.sender = 4 then
    match m.ev with
    | .shmFormat f => .ok (ini, ini.format ps f)
    | _ => .error .decodeFail
  else if m.sender = cid then
    match m.ev with
    | .callbackDone _ => .ok (ini, ps)
    | _ => .error .decodeFail
  else
    .ok (ini, ps)

/-- The phase-2 receive loop of `init`. -/
def phase2Loop (cid : Nat) : List Msg → Initializer → ProcState →
    Except Fatal (Initializer × ProcState × List Msg)
  | msgs, ini, ps =>
    if ini.should_exit then .ok (ini, ps, msgs)
    else
      match msgs with
      | [] => .error .outOfMessages
      | m :: rest =>
        match phase2Step cid ini ps m with
        | .error e => .error e
        | .ok (ini', ps') => phase2Loop cid rest ini' ps'

/-- The missing-mandatory-global check of `init` (lines 128-135): the first
name still 0, paired with its interface, in the fixed `REQUIRED_GLOBALS`
order. -/
def checkMissing (n : GlobalNames) : Option String :=
  if n.compositor = 0 then some "wl_compositor"
  else if n.shm = 0 then some "wl_shm"
  else if n.viewporter = 0 then some "wp_viewporter"
  else if n.layerShell = 0 then some "zwlr_layer_shell_v1"
  else none

/-- The mandatory bind requests of `init` (lines 137-142): one `bind` per
recorded name, at the fixed ids `IDS` and versions `VERSIONS`, in order. -/
def mandatoryBinds (n : GlobalNames) : List Request :=
  [.bind n.compositor 3 "wl_compositor" 4,
   .bind n.shm 4 "wl_shm" 1,
   .bind n.viewporter 5 "wp_viewporter" 1,
   .bind n.layerShell 6 "zwlr_layer_shell_v1" 3]

/-- The binding step of `init` (lines 128-153): validate that no mandatory
global is missing, emit the four mandatory binds, then bind the fractional
scale manager (setting the support flag) when one was recorded. -/
def bindStage (ini : Initializer) (ps : ProcState) :
    Except Fatal (List Request × ProcState) :=
  match checkMissing ini.global_names with
  | some missing => .error (.missingGlobal missing)
  | none =>
    match ini.fractional_scale with
    | some (oid, nm) =>
      .ok (mandatoryBinds ini.global_names
             ++ [.bind nm oid "wp_fractional_scale_manager_v1" 1],
           { ps with fractional_scale_support := true })
    | none => .ok (mandatoryBinds ini.global_names, ps)

/-- Everything `init` does after phase 1 (lines 128-175): bind, send the
second sync at `callback_id`, clear `should_exit` and run the phase-2 loop.
Returns the requests this part sent plus the outcome. -/
def finishInit (ini : Initializer) (ps : ProcState) (msgs : List Msg) :
    List Request × Except Fatal (Initializer × ProcState × List Msg) :=
  match bindStage ini ps with
  | .error e => ([], .error e)
  | .ok (reqs, ps1) =>
    let cid := ini.callback_id
    match phase2Loop cid msgs { ini with should_exit := false } ps1 with
    | .error e => (reqs ++ [.sync cid], .error e)
    | .ok r => (reqs ++ [.sync cid], .ok r)

/-- Outcome of `init`: completion with the final initializer, process state,
request trace and unconsumed messages, or a fatal condition with the
requests sent up to it. -/
inductive InitOutcome
  | ok (ini : Initializer) (ps : ProcState) (requests : List Request)
      (remaining : List Msg)
  | fatal (e : Fatal) (requests : List Request)
deriving DecidableEq, Repr

/-- The request trace of an outcome. -/
def InitOutcome.requests : InitOutcome → List Request
  | .ok _ _ r _ => r
  | .fatal _ r => r

/-- Whether an outcome is a completed bootstrap. -/
def InitOutcome.isOk : InitOutcome → Bool
  | .ok _ _ _ _ => true
  | .fatal _ _ => false

/-- The one-time setup of the process statics in `init` (lines 100-108):
connect the socket (the descriptor the external `connect()` would produce is
passed in as `fd`), create the object manager, force the pixel format when
one was supplied, and set `INITIALIZED`. -/
def connectStage (ps : ProcState) (fd : Nat) (forced : Option PixelFormat) : ProcState :=
  { ps with
    wayland_fd := some fd
    object_manager := true
    pixel_format := match forced with
      | some f => f
      | none => ps.pixel_format
    initialized := true }

/-- `init` from `globals.rs`: return a fresh `Initializer` immediately when
already initialized; otherwise connect, publish the statics, send
`get_registry` and a sync at id 3, run discovery, validate and bind, sync at
`callback_id` and run confirmation. -/
def init (forced : Option PixelFormat) (fd : Nat) (ps : ProcState)
    (msgs : List Msg) : InitOutcome :=
  if ps.initialized then .ok (Initializer.new forced) ps [] msgs
  else
    match phase1Loop msgs (Initializer.new forced) (connectStage ps fd forced) with
    | .error e => .fatal e [.getRegistry, .sync 3]
    | .ok (ini1, ps2, rest) =>
      match finishInit ini1 ps2 rest with
      | (reqs, .error e) => .fatal e ([.getRegistry, .sync 3] ++ reqs)
      | (reqs, .ok (ini2, ps3, rest2)) =>
        .ok ini2 ps3 ([.getRegistry, .sync 3] ++ reqs) rest2

/-- The `(id, interface)` pairs of the bind requests in a trace that target
the reserved mandatory ids 3-6. -/
def bindPairs (reqs : List Request) : List (Nat × String) :=
  reqs.filterMap fun r =>
    match r with
    | .bind _ id interface _ => if id ≤ 6 then some (id, interface) else none
    | _ => none

/-- Iterated application of the `wl_shm` format handler to a stream of
"format available" events. -/
def formatFold (ini : Initializer) : ProcState → List Nat → ProcState
  | ps, [] => ps
  | ps, f :: rest => formatFold ini (ini.format ps f) rest

/-- The pixel-format decision made by one format event, as a pure function
of the forced flag and the current decision (proved below to agree with
`Initializer.format`). -/
def pfStep (forced : Bool) (pf : PixelFormat) (f : Nat) : PixelFormat :=
  if f = XRGB8888 then pf
  else if f = XBGR8888 then
    if forced = false ∧ pf = PixelFormat.Xrgb then PixelFormat.Xbgr else pf
  else if f = RGB888 then
    if forced = false ∧ pf ≠ PixelFormat.Bgr then PixelFormat.Rgb else pf
  else if f = BGR888 then
    if forced = false then PixelFormat.Bgr else pf
  else pf

/-- Iterated `pfStep` over a stream of format events. -/
def pfFold (forced : Bool) : PixelFormat → List Nat → PixelFormat
  | pf, [] => pf
  | pf, f :: rest => pfFold forced (pfStep forced pf f) rest

/-- One "global announced" registry event: advertised name, interface
string and version. -/
structure GlobalAnn where
  name : Nat
  interface : String
  version : Nat
deriving DecidableEq, Repr

/-- The version floor of a mandatory interface (0 for any other string),
looked up in the `REQUIRED_GLOBALS`/`VERSIONS` table. -/
def requiredVersion (s : String) : Nat :=
  ((((REQUIRED_GLOBALS.zip VERSIONS).find? fun p => p.1 == s).map Prod.snd)).getD 0

/-- A well-formed announcement, as the peer produces during a valid
discovery: an announcement of a mandatory interface carries a non-zero
advertised name and at least the required version, and a fractional-scale
announcement carries a non-zero name (the data model reserves name 0 as the
"missing" sentinel). -/
def goodAnn (g : GlobalAnn) : Prop :=
  (g.interface ∈ REQUIRED_GLOBALS → g.name ≠ 0 ∧ requiredVersion g.interface ≤ g.version) ∧
  (g.interface = "wp_fractional_scale_manager_v1" → g.name ≠ 0)

instance : DecidablePred goodAnn := fun g => by
  unfold goodAnn
  infer_instance

/-- The wire message carrying a "global announced" event (sender is the
registry, id 2). -/
def annMsg (g : GlobalAnn) : Msg :=
  ⟨2, .registryGlobal g.name g.interface g.version⟩

/-- The wire message carrying an "object deleted" event (sender is the
display, id 1). -/
def deleteMsg (id : Nat) : Msg :=
  ⟨1, .displayDeleteId id⟩

/-- Whether an announcement list contains the optional fractional-scale
manager. -/
def hasFrac (gs : List GlobalAnn) : Bool :=
  gs.any fun g => g.interface == "wp_fractional_scale_manager_v1"

/-- The successful effect of the `global` handler on the negotiator state
(proved below to agree with `Initializer.global` on well-formed
announcements). -/
def applyAnn (ini : Initializer) (g : GlobalAnn) : Initializer :=
  if g.interface = "wp_fractional_scale_manager_v1" then
    { ini with fractional_scale := some (7, g.name) }
  else if g.interface = "wl_output" then
    if g.version < 4 then ini
    else { ini with output_names := ini.output_names ++ [g.name] }
  else if g.interface = "wl_compositor" then
    { ini with global_names := { ini.global_names with compositor := g.name } }
  else if g.interface = "wl_shm" then
    { ini with global_names := { ini.global_names with shm := g.name } }
  else if g.interface = "wp_viewporter" then
    { ini with global_names := { ini.global_names with viewporter := g.name } }
  else if g.interface = "zwlr_layer_shell_v1" then
    { ini with global_names := { ini.global_names with layerShell := g.name } }
  else ini

/-- Iterated `applyAnn` over an announcement list. -/
def applyAnns : Initializer → List GlobalAnn → Initializer
  | ini, [] => ini
  | ini, g :: rest => applyAnns (applyAnn ini g) rest

theorem format_pf (ini : Initializer) (ps : ProcState) (f : Nat) :
    (ini.format ps f).pixel_format = pfStep ini.forced_shm_format ps.pixel_format f := by
  unfold Initializer.format pfStep
  split_ifs <;> rfl

theorem formatFold_pf (ini : Initializer) (l : List Nat) (ps : ProcState) :
    (formatFold ini ps l).pixel_format = pfFold ini.forced_shm_format ps.pixel_format l := by
  induction l generalizing ps with
  | nil => rfl
  | cons f rest ih =>
    show (formatFold ini (ini.format ps f) rest).pixel_format = _
    rw [ih, format_pf]
    rfl

theorem pfStep_forced (pf : PixelFormat) (f : Nat) : pfStep true pf f = pf := by
  unfold pfStep
  split_ifs <;> simp_all

theorem pfFold_forced (l : List Nat) (pf : PixelFormat) : pfFold true pf l = pf := by
  induction l generalizing pf with
  | nil => rfl
  | cons f rest ih =>
    show pfFold true (pfStep true pf f) rest = pf
    rw [pfStep_forced, ih]

/-- Claim C2: with no forced format, starting from the default decision,
every permutation of the three events {Xrgb, Bgr, Rgb} ends with the
decision `Bgr`, and every permutation of the two events {Xrgb, Rgb} ends
with `Rgb`. -/
theorem pixel_format_order_independent (l₁ l₂ : List Nat) (ps : ProcState)
    (hps : ps.pixel_format = PixelFormat.Xrgb)
    (h₁ : l₁.Perm [XRGB8888, BGR888, RGB888])
    (h₂ : l₂.Perm [XRGB8888, RGB888]) :
    (formatFold (Initializer.new none) ps l₁).pixel_format = PixelFormat.Bgr ∧
    (formatFold (Initializer.new none) ps l₂).pixel_format = PixelFormat.Rgb := by
  have hforced : (Initializer.new none).forced_shm_format = false := rfl
  constructor
  · rw [formatFold_pf, hforced, hps]
    have hall : ∀ l ∈ ([XRGB8888, BGR888, RGB888] : List Nat).permutations',
        pfFold false PixelFormat.Xrgb l = PixelFormat.Bgr := by decide
    exact hall l₁ (List.mem_permutations'.mpr h₁)
  · rw [formatFold_pf, hforced, hps]
    have hall : ∀ l ∈ ([XRGB8888, RGB888] : List Nat).permutations',
        pfFold false PixelFormat.Xrgb l = PixelFormat.Rgb := by decide
    exact hall l₂ (List.mem_permutations'.mpr h₂)

theorem pixel_format_order_independent_witness :
    initialProc.pixel_format = PixelFormat.Xrgb ∧
    (formatFold (Initializer.new none) initialProc [XRGB8888, BGR888, RGB888]).pixel_format
      = PixelFormat.Bgr ∧
    (formatFold (Initializer.new none) initialProc [XRGB8888, RGB888]).pixel_format
      = PixelFormat.Rgb :=
  ⟨rfl,
   (pixel_format_order_independent [XRGB8888, BGR888, RGB888] [XRGB8888, RGB888]
      initialProc rfl (List.Perm.refl _) (List.Perm.refl _)).1,
   (pixel_format_order_independent [XRGB8888, BGR888, RGB888] [XRGB8888, RGB888]
      initialProc rfl (List.Perm.refl _) (List.Perm.refl _)).2⟩

/-- Claim C3 counterexample: the claim says the swapped-unpadded layout
(Rgb) replaces the current decision only when the current decision is still
the default (Xrgb); but from current decision `Xbgr` (reachable and not the
default) an Rgb event does replace the decision. -/
theorem format_single_event_counterexample :
    ¬ ∀ ps : ProcState,
        ((Initializer.new none).format ps RGB888).pixel_format ≠ ps.pixel_format →
        ps.pixel_format = PixelFormat.Xrgb := by
  intro h
  have hx := h { initialProc with pixel_format := PixelFormat.Xbgr } (by decide)
  exact absurd hx (by decide)

/-- Claim C3 (amended): with no forced format, the unswapped-padded layout
(Xbgr) replaces the current decision only when the current decision is
still the padded-swapped default (Xrgb); the swapped-unpadded layout (Rgb)
replaces the current decision unless it is already the unswapped-unpadded
layout (Bgr); and Bgr always becomes the decision, after which no event
changes it. -/
theorem format_single_event_rule (ini : Initializer) (ps : ProcState)
    (hforced : ini.forced_shm_format = false) :
    (ini.format ps XBGR8888).pixel_format
      = (if ps.pixel_format = PixelFormat.Xrgb then PixelFormat.Xbgr else ps.pixel_format) ∧
    (ini.format ps RGB888).pixel_format
      = (if ps.pixel_format ≠ PixelFormat.Bgr then PixelFormat.Rgb else ps.pixel_format) ∧
    (ini.format ps BGR888).pixel_format = PixelFormat.Bgr ∧
    (∀ ps' : ProcState, ∀ f : Nat, ps'.pixel_format = PixelFormat.Bgr →
      (ini.format ps' f).pixel_format = PixelFormat.Bgr) := by
  refine ⟨?_, ?_, ?_, ?_⟩
  · rw [format_pf, hforced]
    unfold pfStep
    simp [XRGB8888, XBGR8888, RGB888, BGR888]
  · rw [format_pf, hforced]
    unfold pfStep
    simp [XRGB8888, XBGR8888, RGB888, BGR888]
  · rw [format_pf, hforced]
    unfold pfStep
    simp [XRGB8888, XBGR8888, RGB888, BGR888]
  · intro ps' f hbgr
    rw [format_pf, hforced, hbgr]
    unfold pfStep
    split_ifs <;> simp_all

theorem format_single_event_rule_witness :
    (Initializer.new none).forced_shm_format = false ∧
    ((Initializer.new none).format initialProc XBGR8888).pixel_format
      = (if initialProc.pixel_format = PixelFormat.Xrgb then PixelFormat.Xbgr
         else initialProc.pixel_format) :=
  ⟨rfl, (format_single_event_rule (Initializer.new none) initialProc rfl).1⟩

/-- Claim C4: when a pixel format is forced at initialization, the forced
flag is set, the published decision is the forced format, and no sequence
of "format available" events ever changes it. -/
theorem forced_format_immutable (f : PixelFormat) (fd : Nat) (ps : ProcState) (l : List Nat) :
    (Initializer.new (some f)).forced_shm_format = true ∧
    (connectStage ps fd (some f)).pixel_format = f ∧
    (formatFold (Initializer.new (some f)) (connectStage ps fd (some f)) l).pixel_format = f := by
  refine ⟨rfl, rfl, ?_⟩
  rw [formatFold_pf]
  exact pfFold_forced l f

theorem applyAnn_should_exit (ini : Initializer) (g : GlobalAnn) :
    (applyAnn ini g).should_exit = ini.should_exit := by
  unfold applyAnn
  split_ifs <;> rfl

theorem applyAnn_forced (ini : Initializer) (g : GlobalAnn) :
    (applyAnn ini g).forced_shm_format = ini.forced_shm_format := by
  unfold applyAnn
  split_ifs <;> rfl

theorem applyAnn_frac (ini : Initializer) (g : GlobalAnn) :
    (applyAnn ini g).fractional_scale
      = if g.interface = "wp_fractional_scale_manager_v1" then some (7, g.name)
        else ini.fractional_scale := by
  unfold applyAnn
  split_ifs <;> simp_all

theorem applyAnn_comp (ini : Initializer) (g : GlobalAnn) :
    (applyAnn ini g).global_names.compositor
      = if g.interface = "wl_compositor" then g.name
        else ini.global_names.compositor := by
  unfold applyAnn
  split_ifs <;> simp_all

theorem applyAnn_shm (ini : Initializer) (g : GlobalAnn) :
    (applyAnn ini g).global_names.shm
      = if g.interface = "wl_shm" then g.name else ini.global_names.shm := by
  unfold applyAnn
  split_ifs <;> simp_all

theorem applyAnn_viewporter (ini : Initializer) (g : GlobalAnn) :
    (applyAnn ini g).global_names.viewporter
      = if g.interface = "wp_viewporter" then g.name
        else ini.global_names.viewporter := by
  unfold applyAnn
  split_ifs <;> simp_all

theorem applyAnn_layerShell (ini : Initializer) (g : GlobalAnn) :
    (applyAnn ini g).global_names.layerShell
      = if g.interface = "zwlr_layer_shell_v1" then g.name
        else ini.global_names.layerShell := by
  unfold applyAnn
  split_ifs <;> simp_all

theorem global_good (ini : Initializer) (g : GlobalAnn) (hg : goodAnn g) :
    ini.global g.name g.interface g.version = .ok (applyAnn ini g) := by
  obtain ⟨hmand, hfrac⟩ := hg
  by_cases h1 : g.interface = "wp_fractional_scale_manager_v1"
  · simp [Initializer.global, applyAnn, h1, hfrac h1]
  by_cases h2 : g.interface = "wl_output"
  · unfold Initializer.global applyAnn
    rw [if_neg h1, if_neg h1, if_pos h2, if_pos h2]
    split_ifs <;> rfl
  by_cases h3 : g.interface = "wl_compositor"
  · have hle : ¬(g.version < 4) := by
      have hv := (hmand (by rw [h3]; decide)).2
      rw [h3] at hv
      have h4 : requiredVersion "wl_compositor" = 4 := by decide
      omega
    simp [Initializer.global, applyAnn, h1, h2, h3, hle]
  by_cases h4 : g.interface = "wl_shm"
  · have hle : ¬(g.version < 1) := by
      have hv := (hmand (by rw [h4]; decide)).2
      rw [h4] at hv
      have h1v : requiredVersion "wl_shm" = 1 := by decide
      omega
    simp [Initializer.global, applyAnn, h1, h2, h3, h4, hle]
  by_cases h5 : g.interface = "wp_viewporter"
  · have hle : ¬(g.version < 1) := by
      have hv := (hmand (by rw [h5]; decide)).2
      rw [h5] at hv
      have h1v : requiredVersion "wp_viewporter" = 1 := by decide
      omega
    simp [Initializer.global, applyAnn, h1, h2, h3, h4, h5, hle]
  by_cases h6 : g.interface = "zwlr_layer_shell_v1"
  · have hle : ¬(g.version < 3) := by
      have hv := (hmand (by rw [h6]; decide)).2
      rw [h6] at hv
      have h3v : requiredVersion "zwlr_layer_shell_v1" = 3 := by decide
      omega
    simp [Initializer.global, applyAnn, h1, h2, h3, h4, h5, h6, hle]
  · simp [Initializer.global, applyAnn, h1, h2, h3, h4, h5, h6]

theorem applyAnns_should_exit (gs : List GlobalAnn) : ∀ ini : Initializer,
    (applyAnns ini gs).should_exit = ini.should_exit := by
  induction gs with
  | nil => intro ini; rfl
  | cons g rest ih =>
    intro ini
    show (applyAnns (applyAnn ini g) rest).should_exit = _
    rw [ih, applyAnn_should_exit]

theorem applyAnns_forced (gs : List GlobalAnn) : ∀ ini : Initializer,
    (applyAnns ini gs).forced_shm_format = ini.forced_shm_format := by
  induction gs with
  | nil => intro ini; rfl
  | cons g rest ih =>
    intro ini
    show (applyAnns (applyAnn ini g) rest).forced_shm_format = _
    rw [ih, applyAnn_forced]

theorem applyAnns_frac_isSome (gs : List GlobalAnn) : ∀ ini : Initializer,
    (applyAnns ini gs).fractional_scale.isSome
      = (ini.fractional_scale.isSome || hasFrac gs) := by
  induction gs with
  | nil => intro ini; simp [hasFrac, applyAnns]
  | cons g rest ih =>
    intro ini
    show (applyAnns (applyAnn ini g) rest).fractional_scale.isSome = _
    rw [ih, applyAnn_frac]
    by_cases h : g.interface = "wp_fractional_scale_manager_v1"
    · simp [h, hasFrac]
    · have hb : (g.interface == "wp_fractional_scale_manager_v1") = false :=
        beq_eq_false_iff_ne.mpr h
      simp [h, hasFrac, hb]

theorem applyAnns_frac_shape (gs : List GlobalAnn) : ∀ ini : Initializer,
    (ini.fractional_scale = none ∨ ∃ n, ini.fractional_scale = some (7, n)) →
    ((applyAnns ini gs).fractional_scale = none
      ∨ ∃ n, (applyAnns ini gs).fractional_scale = some (7, n)) := by
  induction gs with
  | nil => intro ini h; exact h
  | cons g rest ih =>
    intro ini h
    show (applyAnns (applyAnn ini g) rest).fractional_scale = none ∨ _
    apply ih
    rw [applyAnn_frac]
    by_cases hgf : g.interface = "wp_fractional_scale_manager_v1"
    · rw [if_pos hgf]
      exact Or.inr ⟨g.name, rfl⟩
    · rw [if_neg hgf]
      exact h

theorem applyAnns_field_ne_zero (f : GlobalNames → Nat) (s : String)
    (hstep : ∀ (ini : Initializer) (g : GlobalAnn), f (applyAnn ini g).global_names
        = if g.interface = s then g.name else f ini.global_names)
    (hs : s ∈ REQUIRED_GLOBALS) :
    ∀ (gs : List GlobalAnn) (ini : Initializer), (∀ g ∈ gs, goodAnn g) →
      ((∃ g ∈ gs, g.interface = s) ∨ f ini.global_names ≠ 0) →
      f (applyAnns ini gs).global_names ≠ 0 := by
  intro gs
  induction gs with
  | nil =>
    intro ini _ h
    rcases h with ⟨g, hg, _⟩ | h
    · exact absurd hg (List.not_mem_nil g)
    · exact h
  | cons g rest ih =>
    intro ini hgood h
    show f (applyAnns (applyAnn ini g) rest).global_names ≠ 0
    apply ih (applyAnn ini g) fun x hx => hgood x (List.mem_cons_of_mem g hx)
    by_cases hgs : g.interface = s
    · right
      rw [hstep, if_pos hgs]
      exact ((hgood g (List.mem_cons_self g rest)).1 (by rw [hgs]; exact hs)).1
    · rcases h with ⟨g', hg', hgs'⟩ | h
      · rcases List.mem_cons.mp hg' with rfl | hg'
        · exact absurd hgs' hgs
        · exact Or.inl ⟨g', hg', hgs'⟩
      · right
        rw [hstep, if_neg hgs]
        exact h

theorem phase1Loop_exit (msgs : List Msg) (ini : Initializer) (ps : ProcState)
    (h : ini.should_exit = true) :
    phase1Loop msgs ini ps = .ok (ini, ps, msgs) := by
  unfold phase1Loop
  rw [if_pos h]

theorem phase1Loop_cons (m : Msg) (rest : List Msg) (ini : Initializer) (ps : ProcState)
    (h : ini.should_exit = false) :
    phase1Loop (m :: rest) ini ps =
      match phase1Step ini ps m with
      | .error e => .error e
      | .ok (ini', ps') => phase1Loop rest ini' ps' := by
  conv_lhs => unfold phase1Loop
  rw [if_neg (by simp [h])]

theorem phase2Loop_exit (cid : Nat) (msgs : List Msg) (ini : Initializer) (ps : ProcState)
    (h : ini.should_exit = true) :
    phase2Loop cid msgs ini ps = .ok (ini, ps, msgs) := by
  unfold phase2Loop
  rw [if_pos h]

theorem phase2Loop_cons (cid : Nat) (m : Msg) (rest : List Msg) (ini : Initializer)
    (ps : ProcState) (h : ini.should_exit = false) :
    phase2Loop cid (m :: rest) ini ps =
      match phase2Step cid ini ps m with
      | .error e => .error e
      | .ok (ini', ps') => phase2Loop cid rest ini' ps' := by
  conv_lhs => unfold phase2Loop
  rw [if_neg (by simp [h])]

theorem phase1Step_ann (ini : Initializer) (ps : ProcState) (g : GlobalAnn)
    (hg : goodAnn g) :
    phase1Step ini ps (annMsg g) = .ok (applyAnn ini g, ps) := by
  unfold phase1Step annMsg
  norm_num
  rw [global_good ini g hg]

theorem phase1Loop_anns (gs : List GlobalAnn) : ∀ (ini : Initializer) (ps : ProcState)
    (msgs : List Msg), (∀ g ∈ gs, goodAnn g) → ini.should_exit = false →
    phase1Loop (gs.map annMsg ++ msgs) ini ps = phase1Loop msgs (applyAnns ini gs) ps := by
  induction gs with
  | nil => intro ini ps msgs _ _; rfl
  | cons g rest ih =>
    intro ini ps msgs hgood hexit
    rw [List.map_cons, List.cons_append, phase1Loop_cons _ _ _ _ hexit,
      phase1Step_ann ini ps g (hgood g (List.mem_cons_self g rest))]
    exact ih (applyAnn ini g) ps msgs
      (fun x hx => hgood x (List.mem_cons_of_mem g hx))
      (by rw [applyAnn_should_exit]; exact hexit)

/-- Claim C8 counterexample: during discovery (phase 1) a message whose
sender is the shared-memory provider (id 4) carrying a "format available"
event is treated as a fatal unexpected sender, not dispatched to the format
handler. -/
theorem shm_in_discovery_counterexample :
    init none 5 initialProc [⟨4, .shmFormat BGR888⟩]
      = .fatal .unexpectedSender [.getRegistry, .sync 3] := by decide

/-- Claim C8 (amended): during phase 1 any sender other than 3 (the sync
callback), 1 (display) and 2 (registry) — the shared-memory provider
included — is the fatal "did not receive expected global events" violation;
a shared-memory "format available" event is dispatched to the format
handler (which respects a forced format) only in the confirmation phase. -/
theorem shm_dispatch_phases (ini : Initializer) (ps : ProcState) (m : Msg)
    (rest msgs : List Msg) (cid f : Nat)
    (hexit : ini.should_exit = false) :
    (m.sender ≠ 1 → m.sender ≠ 2 → m.sender ≠ 3 →
      phase1Loop (m :: rest) ini ps = .error .unexpectedSender) ∧
    phase2Loop cid (⟨4, .shmFormat f⟩ :: msgs) ini ps
      = phase2Loop cid msgs ini (ini.format ps f) := by
  constructor
  · intro h1 h2 h3
    rw [phase1Loop_cons _ _ _ _ hexit]
    unfold phase1Step
    rw [if_neg h3, if_neg h1, if_neg h2]
  · rw [phase2Loop_cons _ _ _ _ _ hexit]
    rfl

theorem shm_dispatch_phases_witness :
    (Initializer.new none).should_exit = false ∧
    ((4 : Nat) ≠ 1 → (4 : Nat) ≠ 2 → (4 : Nat) ≠ 3 →
      phase1Loop [⟨4, .shmFormat BGR888⟩] (Initializer.new none) initialProc
        = .error .unexpectedSender) ∧
    phase2Loop 7 [⟨4, .shmFormat BGR888⟩] (Initializer.new none) initialProc
      = phase2Loop 7 [] (Initializer.new none)
          ((Initializer.new none).format initialProc BGR888) :=
  ⟨rfl,
   (shm_dispatch_phases (Initializer.new none) initialProc ⟨4, .shmFormat BGR888⟩
      [] [] 7 BGR888 rfl).1,
   (shm_dispatch_phases (Initializer.new none) initialProc ⟨4, .shmFormat BGR888⟩
      [] [] 7 BGR888 rfl).2⟩

/-- Claim C9 counterexample: in phase 2 with no fractional-scale record the
awaited callback id is 7, yet an "object deleted" event naming id 3 is not
fatal — it ends the phase-2 loop normally. -/
theorem delete_wrong_id_counterexample :
    phase2Loop 7 [deleteMsg 3] (Initializer.new none) initialProc
      = .ok ({ Initializer.new none with should_exit := true }, initialProc, []) := by
  decide

/-- Claim C9 (amended): in both phases the delete handler accepts exactly
the ids in {3} ∪ {7 when no fractional-scale descriptor is recorded, 8
when one is}: an accepted id sets the exit flag (ending whichever phase is
looping), any other id is the fatal "ObjectId removed during
initialization" condition, whose message differs from the missing-global
fatal message. -/
theorem delete_id_rule (ini : Initializer) (id : Nat) (s : String) :
    (id = 3 ∨ (ini.fractional_scale.isNone = true ∧ id = 7)
        ∨ (ini.fractional_scale.isSome = true ∧ id = 8) →
      ini.delete_id id = .ok { ini with should_exit := true }) ∧
    (id ≠ 3 → ¬(ini.fractional_scale.isNone = true ∧ id = 7) →
        ¬(ini.fractional_scale.isSome = true ∧ id = 8) →
      ini.delete_id id = .error .objectRemoved) ∧
    Fatal.message .objectRemoved ≠ Fatal.message (.missingGlobal s) := by
  refine ⟨?_, ?_, ?_⟩
  · intro h
    unfold Initializer.delete_id
    rw [if_pos]
    rcases h with h | ⟨h1, h2⟩ | ⟨h1, h2⟩
    · simp [h]
    · simp [h1, h2]
    · simp [h1, h2]
  · intro h1 h2 h3
    unfold Initializer.delete_id
    rw [if_neg]
    simp only [Bool.or_eq_true, Bool.and_eq_true, beq_iff_eq]
    rintro ((h | h) | h)
    · exact h1 h
    · exact h2 h
    · exact h3 h
  · intro heq
    have hd := congrArg (fun t : String => t.data.head?) heq
    simp only [Fatal.message] at hd
    have hl : ("ObjectId removed during initialization! This should be very rare, which is why we don't deal with it" : String).data.head?
        = some 'O' := rfl
    have hr : ("Compositor does not implement required interface: " ++ s : String).data.head?
        = some 'C' := rfl
    rw [hl, hr] at hd
    simp at hd

theorem delete_id_rule_witness :
    ((3 : Nat) = 3 ∨ ((Initializer.new none).fractional_scale.isNone = true ∧ (3 : Nat) = 7)
        ∨ ((Initializer.new none).fractional_scale.isSome = true ∧ (3 : Nat) = 8)) ∧
    (Initializer.new none).delete_id 3
      = .ok { Initializer.new none with should_exit := true } :=
  ⟨Or.inl rfl,
   (delete_id_rule (Initializer.new none) 3 "wl_compositor").1 (Or.inl rfl)⟩

/-- Claim C10: when the process is already initialized, `init` returns a
fresh empty negotiator immediately — all four mandatory names 0, no
outputs, no fractional-scale descriptor — consuming no messages, sending no
requests, and leaving every process-wide field unchanged. -/
theorem init_already_initialized (forced : Option PixelFormat) (fd : Nat)
    (ps : ProcState) (msgs : List Msg) (h : ps.initialized = true) :
    init forced fd ps msgs = .ok (Initializer.new forced) ps [] msgs ∧
    Initializer.new forced =
      { global_names := ⟨0, 0, 0, 0⟩, output_names := [], fractional_scale := none,
        forced_shm_format := forced.isSome, should_exit := false } := by
  refine ⟨?_, rfl⟩
  unfold init
  rw [if_pos h]

theorem init_already_initialized_witness :
    ({ initialProc with initialized := true } : ProcState).initialized = true ∧
    init none 5 { initialProc with initialized := true } [deleteMsg 3]
      = .ok (Initializer.new none) { initialProc with initialized := true } []
          [deleteMsg 3] :=
  ⟨rfl,
   (init_already_initialized none 5 { initialProc with initialized := true }
      [deleteMsg 3] rfl).1⟩

/-- Claim C5: when discovery ends with some mandatory advertised name still
0, `init` fails fatally before sending any bind request, and the fatal
condition names exactly the first missing interface in the fixed order
compositor, shared-memory provider, viewport scaler, layer-shell manager. -/
theorem missing_global_fatal (forced : Option PixelFormat) (fd : Nat) (ps : ProcState)
    (msgs rest : List Msg) (ini1 : Initializer) (ps2 : ProcState)
    (h0 : ps.initialized = false)
    (h1 : phase1Loop msgs (Initializer.new forced) (connectStage ps fd forced)
        = .ok (ini1, ps2, rest))
    (h2 : ini1.global_names.compositor = 0 ∨ ini1.global_names.shm = 0
        ∨ ini1.global_names.viewporter = 0 ∨ ini1.global_names.layerShell = 0) :
    init forced fd ps msgs
      = .fatal (.missingGlobal ((checkMissing ini1.global_names).getD ""))
          [.getRegistry, .sync 3] ∧
    bindPairs [Request.getRegistry, .sync 3] = [] ∧
    (ini1.global_names.compositor = 0 →
      (checkMissing ini1.global_names).getD "" = "wl_compositor") ∧
    (ini1.global_names.compositor ≠ 0 → ini1.global_names.shm = 0 →
      (checkMissing ini1.global_names).getD "" = "wl_shm") ∧
    (ini1.global_names.compositor ≠ 0 → ini1.global_names.shm ≠ 0 →
      ini1.global_names.viewporter = 0 →
      (checkMissing ini1.global_names).getD "" = "wp_viewporter") ∧
    (ini1.global_names.compositor ≠ 0 → ini1.global_names.shm ≠ 0 →
      ini1.global_names.viewporter ≠ 0 → ini1.global_names.layerShell = 0 →
      (checkMissing ini1.global_names).getD "" = "zwlr_layer_shell_v1") := by
  obtain ⟨m, hm⟩ : ∃ m, checkMissing ini1.global_names = some m := by
    unfold checkMissing
    rcases h2 with h | h | h | h <;> split_ifs <;> simp_all
  refine ⟨?_, rfl, ?_, ?_, ?_, ?_⟩
  · unfold init
    rw [if_neg (by simp [h0]), h1]
    unfold finishInit bindStage
    rw [hm]
    simp [hm]
  · intro hc
    unfold checkMissing
    rw [if_pos hc]
    rfl
  · intro hc hs
    unfold checkMissing
    rw [if_neg hc, if_pos hs]
    rfl
  · intro hc hs hv
    unfold checkMissing
    rw [if_neg hc, if_neg hs, if_pos hv]
    rfl
  · intro hc hs hv hl
    unfold checkMissing
    rw [if_neg hc, if_neg hs, if_neg hv, if_pos hl]
    rfl

theorem missing_global_fatal_witness :
    initialProc.initialized = false ∧
    phase1Loop [deleteMsg 3] (Initializer.new none) (connectStage initialProc 5 none)
      = .ok ({ Initializer.new none with should_exit := true },
             connectStage initialProc 5 none, []) ∧
    init none 5 initialProc [deleteMsg 3]
      = .fatal (.missingGlobal ((checkMissing
          ({ Initializer.new none with should_exit := true } : Initializer).global_names).getD ""))
          [.getRegistry, .sync 3] :=
  ⟨rfl, by decide,
   (missing_global_fatal none 5 initialProc [deleteMsg 3] []
      { Initializer.new none with should_exit := true }
      (connectStage initialProc 5 none) rfl (by decide) (Or.inl rfl)).1⟩

/-- Claim C6: a mandatory interface announced below its version floor
(compositor 4, shm 1, viewporter 1, layer-shell 3) is fatal at the moment
the announcement is processed — that is, inside the phase-1 loop and hence
before any bind request is sent — and the failure names the interface and
its minimum version. -/
theorem version_too_low_fatal (ini : Initializer) (ps : ProcState) (name version fd : Nat)
    (forced : Option PixelFormat) (ps0 : ProcState) (msgs rest : List Msg) (e : Fatal) :
    (version < 4 → ini.global name "wl_compositor" version
        = .error (.versionTooLow "wl_compositor" 4)) ∧
    (version < 1 → ini.global name "wl_shm" version
        = .error (.versionTooLow "wl_shm" 1)) ∧
    (version < 1 → ini.global name "wp_viewporter" version
        = .error (.versionTooLow "wp_viewporter" 1)) ∧
    (version < 3 → ini.global name "zwlr_layer_shell_v1" version
        = .error (.versionTooLow "zwlr_layer_shell_v1" 3)) ∧
    (ini.should_exit = false → version < 4 →
      phase1Loop (annMsg ⟨name, "wl_compositor", version⟩ :: rest) ini ps
        = .error (.versionTooLow "wl_compositor" 4)) ∧
    (ps0.initialized = false →
      phase1Loop msgs (Initializer.new forced) (connectStage ps0 fd forced) = .error e →
      init forced fd ps0 msgs = .fatal e [.getRegistry, .sync 3]) ∧
    bindPairs [Request.getRegistry, .sync 3] = [] ∧
    Fatal.message (.versionTooLow "wl_compositor" 4)
      = "wl_compositor version must be at least 4 for swww" := by
  have hcomp : ∀ v : Nat, v < 4 → ini.global name "wl_compositor" v
      = .error (.versionTooLow "wl_compositor" 4) := by
    intro v hv
    simp [Initializer.global, hv]
  refine ⟨hcomp version, ?_, ?_, ?_, ?_, ?_, rfl, rfl⟩
  · intro hv
    simp [Initializer.global, hv]
  · intro hv
    simp [Initializer.global, hv]
  · intro hv
    simp [Initializer.global, hv]
  · intro hexit hv
    rw [phase1Loop_cons _ _ _ _ hexit]
    have hstep : phase1Step ini ps (annMsg ⟨name, "wl_compositor", version⟩)
        = .error (.versionTooLow "wl_compositor" 4) := by
      unfold phase1Step annMsg
      norm_num
      rw [hcomp version hv]
    rw [hstep]
  · intro hinit hloop
    unfold init
    rw [if_neg (by simp [hinit]), hloop]

theorem version_too_low_fatal_witness :
    (3 : Nat) < 4 ∧
    (Initializer.new none).global 9 "wl_compositor" 3
      = .error (.versionTooLow "wl_compositor" 4) ∧
    (Initializer.new none).should_exit = false ∧
    phase1Loop [annMsg ⟨9, "wl_compositor", 3⟩] (Initializer.new none) initialProc
      = .error (.versionTooLow "wl_compositor" 4) :=
  ⟨by decide,
   (version_too_low_fatal (Initializer.new none) initialProc 9 3 5 none initialProc
      [] [] Fatal.outOfMessages).1 (by decide),
   rfl,
   (version_too_low_fatal (Initializer.new none) initialProc 9 3 5 none initialProc
      [] [] Fatal.outOfMessages).2.2.2.2.1 rfl (by decide)⟩

/-- Claim C7: when a fractional-scale descriptor was recorded it is bound
at the identifier the handler recorded — always 7, one past the last
mandatory id — the support flag is set, and the phase-2 sync callback is
created at id 8; with no descriptor the support flag (and the whole
process state) is left unchanged and the phase-2 callback is created at id
7. -/
theorem fractional_scale_binding (ini ini2 : Initializer) (ps : ProcState)
    (msgs : List Msg) (oid nm name version : Nat)
    (hmiss : checkMissing ini.global_names = none) :
    (ini.fractional_scale = some (oid, nm) →
      bindStage ini ps = .ok (mandatoryBinds ini.global_names
          ++ [.bind nm oid "wp_fractional_scale_manager_v1" 1],
        { ps with fractional_scale_support := true }) ∧
      ini.callback_id = 8 ∧
      (finishInit ini ps msgs).1 = mandatoryBinds ini.global_names
          ++ [.bind nm oid "wp_fractional_scale_manager_v1" 1, .sync 8]) ∧
    (ini.fractional_scale = none →
      bindStage ini ps = .ok (mandatoryBinds ini.global_names, ps) ∧
      ini.callback_id = 7 ∧
      (finishInit ini ps msgs).1 = mandatoryBinds ini.global_names ++ [.sync 7]) ∧
    (name ≠ 0 → ini2.global name "wp_fractional_scale_manager_v1" version
        = .ok { ini2 with fractional_scale := some (7, name) }) := by
  refine ⟨?_, ?_, ?_⟩
  · intro hf
    have hbind : bindStage ini ps = .ok (mandatoryBinds ini.global_names
        ++ [.bind nm oid "wp_fractional_scale_manager_v1" 1],
        { ps with fractional_scale_support := true }) := by
      unfold bindStage
      rw [hmiss, hf]
    have hcid : ini.callback_id = 8 := by
      unfold Initializer.callback_id
      rw [hf]
      rfl
    refine ⟨hbind, hcid, ?_⟩
    unfold finishInit
    rw [hbind]
    dsimp only
    rw [hcid]
    split <;> simp
  · intro hf
    have hbind : bindStage ini ps = .ok (mandatoryBinds ini.global_names, ps) := by
      unfold bindStage
      rw [hmiss, hf]
    have hcid : ini.callback_id = 7 := by
      unfold Initializer.callback_id
      rw [hf]
      rfl
    refine ⟨hbind, hcid, ?_⟩
    unfold finishInit
    rw [hbind]
    dsimp only
    rw [hcid]
    split <;> simp
  · intro hn
    simp [Initializer.global, hn]

theorem fractional_scale_binding_witness :
    checkMissing (⟨10, 11, 12, 13⟩ : GlobalNames) = none ∧
    ({ Initializer.new none with
        global_names := ⟨10, 11, 12, 13⟩
        fractional_scale := some (7, 9) } : Initializer).fractional_scale = some (7, 9) ∧
    ({ Initializer.new none with
        global_names := ⟨10, 11, 12, 13⟩
        fractional_scale := some (7, 9) } : Initializer).callback_id = 8 ∧
    (finishInit
        { Initializer.new none with
          global_names := ⟨10, 11, 12, 13⟩
          fractional_scale := some (7, 9) } initialProc [deleteMsg 8]).1
      = mandatoryBinds ⟨10, 11, 12, 13⟩
          ++ [.bind 9 7 "wp_fractional_scale_manager_v1" 1, .sync 8] :=
  ⟨rfl, rfl,
   ((fractional_scale_binding
      { Initializer.new none with
        global_names := ⟨10, 11, 12, 13⟩
        fractional_scale := some (7, 9) }
      (Initializer.new none) initialProc [deleteMsg 8] 7 9 1 1 rfl).1 rfl).2.1,
   ((fractional_scale_binding
      { Initializer.new none with
        global_names := ⟨10, 11, 12, 13⟩
        fractional_scale := some (7, 9) }
      (Initializer.new none) initialProc [deleteMsg 8] 7 9 1 1 rfl).1 rfl).2.2⟩

theorem phase2Loop_delete (cid id : Nat) (ini : Initializer) (ps : ProcState)
    (hexit : ini.should_exit = false)
    (hacc : (id == 3 || ini.fractional_scale.isNone && id == 7
        || ini.fractional_scale.isSome && id == 8) = true) :
    phase2Loop cid [deleteMsg id] ini ps
      = .ok ({ ini with should_exit := true }, ps, []) := by
  rw [phase2Loop_cons _ _ _ _ _ hexit]
  have hstep : phase2Step cid ini ps (deleteMsg id)
      = .ok ({ ini with should_exit := true }, ps) := by
    unfold phase2Step deleteMsg
    norm_num
    unfold Initializer.delete_id
    rw [if_pos hacc]
  rw [hstep]
  exact phase2Loop_exit _ _ _ _ rfl

/-- Claim C1: for every well-formed announcement list that contains all
four mandatory interfaces at or above their required versions — in any
order, with any other globals interleaved — bootstrap completes and its
bind requests map exactly identifiers 3, 4, 5 and 6 to the compositor,
shared-memory provider, viewport scaler and layer-shell manager
respectively, independently of the announcement order. -/
theorem mandatory_binds_order_independent (forced : Option PixelFormat) (fd : Nat)
    (ps : ProcState) (gs : List GlobalAnn)
    (hps : ps.initialized = false)
    (hgood : ∀ g ∈ gs, goodAnn g)
    (hall : ∀ s ∈ REQUIRED_GLOBALS, ∃ g ∈ gs, g.interface = s) :
    (init forced fd ps (gs.map annMsg
        ++ [deleteMsg 3, deleteMsg (if hasFrac gs then 8 else 7)])).isOk = true ∧
    bindPairs (init forced fd ps (gs.map annMsg
        ++ [deleteMsg 3, deleteMsg (if hasFrac gs then 8 else 7)])).requests
      = [(3, "wl_compositor"), (4, "wl_shm"), (5, "wp_viewporter"),
         (6, "zwlr_layer_shell_v1")] := by
  have hexit0 : (Initializer.new forced).should_exit = false := rfl
  have hphase1 : ∀ tail : List Msg,
      phase1Loop (gs.map annMsg ++ (deleteMsg 3 :: tail)) (Initializer.new forced)
          (connectStage ps fd forced)
        = .ok ({ applyAnns (Initializer.new forced) gs with should_exit := true },
               connectStage ps fd forced, tail) := by
    intro tail
    rw [phase1Loop_anns gs _ _ _ hgood hexit0]
    have hexit1 : (applyAnns (Initializer.new forced) gs).should_exit = false := by
      rw [applyAnns_should_exit]
      rfl
    rw [phase1Loop_cons _ _ _ _ hexit1]
    have hstep : phase1Step (applyAnns (Initializer.new forced) gs)
        (connectStage ps fd forced) (deleteMsg 3)
        = .ok ({ applyAnns (Initializer.new forced) gs with should_exit := true },
               connectStage ps fd forced) := by
      unfold phase1Step deleteMsg
      norm_num
      unfold Initializer.delete_id
      rw [if_pos (by simp)]
    rw [hstep]
    exact phase1Loop_exit _ _ _ rfl
  have hcomp : (applyAnns (Initializer.new forced) gs).global_names.compositor ≠ 0 :=
    applyAnns_field_ne_zero GlobalNames.compositor "wl_compositor"
      (fun ini g => applyAnn_comp ini g) (by decide) gs (Initializer.new forced) hgood
      (Or.inl (hall "wl_compositor" (by decide)))
  have hshm : (applyAnns (Initializer.new forced) gs).global_names.shm ≠ 0 :=
    applyAnns_field_ne_zero GlobalNames.shm "wl_shm"
      (fun ini g => applyAnn_shm ini g) (by decide) gs (Initializer.new forced) hgood
      (Or.inl (hall "wl_shm" (by decide)))
  have hview : (applyAnns (Initializer.new forced) gs).global_names.viewporter ≠ 0 :=
    applyAnns_field_ne_zero GlobalNames.viewporter "wp_viewporter"
      (fun ini g => applyAnn_viewporter ini g) (by decide) gs (Initializer.new forced) hgood
      (Or.inl (hall "wp_viewporter" (by decide)))
  have hlayer : (applyAnns (Initializer.new forced) gs).global_names.layerShell ≠ 0 :=
    applyAnns_field_ne_zero GlobalNames.layerShell "zwlr_layer_shell_v1"
      (fun ini g => applyAnn_layerShell ini g) (by decide) gs (Initializer.new forced) hgood
      (Or.inl (hall "zwlr_layer_shell_v1" (by decide)))
  have hmiss : checkMissing (applyAnns (Initializer.new forced) gs).global_names = none := by
    unfold checkMissing
    rw [if_neg hcomp, if_neg hshm, if_neg hview, if_neg hlayer]
  have hshape := applyAnns_frac_shape gs (Initializer.new forced) (Or.inl rfl)
  have hsome : (applyAnns (Initializer.new forced) gs).fractional_scale.isSome
      = hasFrac gs := by
    rw [applyAnns_frac_isSome]
    simp [Initializer.new]
  by_cases hf : hasFrac gs = true
  · rcases hshape with hnone | ⟨n, h7⟩
    · rw [hnone, hf] at hsome
      exact absurd hsome (by decide)
    have hbind : bindStage
        { applyAnns (Initializer.new forced) gs with should_exit := true }
        (connectStage ps fd forced)
        = .ok (mandatoryBinds (applyAnns (Initializer.new forced) gs).global_names
            ++ [.bind n 7 "wp_fractional_scale_manager_v1" 1],
          { connectStage ps fd forced with fractional_scale_support := true }) := by
      unfold bindStage
      dsimp only
      rw [hmiss, h7]
    have hcid : ({ applyAnns (Initializer.new forced) gs with should_exit := true }
        : Initializer).callback_id = 8 := by
      unfold Initializer.callback_id
      dsimp only
      rw [h7]
      rfl
    have hfin : finishInit
        { applyAnns (Initializer.new forced) gs with should_exit := true }
        (connectStage ps fd forced) [deleteMsg 8]
        = (mandatoryBinds (applyAnns (Initializer.new forced) gs).global_names
            ++ [.bind n 7 "wp_fractional_scale_manager_v1" 1] ++ [.sync 8],
           .ok ({ applyAnns (Initializer.new forced) gs with should_exit := true },
                { connectStage ps fd forced with fractional_scale_support := true },
                [])) := by
      unfold finishInit
      rw [hbind]
      dsimp only
      rw [hcid]
      rw [phase2Loop_delete 8 8 _ _ rfl (by dsimp only; rw [h7]; rfl)]
    have hfinal : init forced fd ps (gs.map annMsg
        ++ [deleteMsg 3, deleteMsg (if hasFrac gs then 8 else 7)])
        = .ok { applyAnns (Initializer.new forced) gs with should_exit := true }
            { connectStage ps fd forced with fractional_scale_support := true }
            ([.getRegistry, .sync 3]
              ++ (mandatoryBinds (applyAnns (Initializer.new forced) gs).global_names
                  ++ [.bind n 7 "wp_fractional_scale_manager_v1" 1] ++ [.sync 8]))
            [] := by
      have hifcid : (if hasFrac gs then 8 else 7 : Nat) = 8 := by rw [hf]; rfl
      unfold init
      rw [if_neg (by simp [hps]), hifcid]
      rw [hphase1 [deleteMsg 8]]
      dsimp only
      rw [hfin]
    rw [hfinal]
    constructor
    · rfl
    · simp [InitOutcome.requests, bindPairs, mandatoryBinds]
  · have hf' : hasFrac gs = false := by
      revert hf
      cases hasFrac gs <;> simp
    have hnone : (applyAnns (Initializer.new forced) gs).fractional_scale = none := by
      cases hopt : (applyAnns (Initializer.new forced) gs).fractional_scale with
      | none => rfl
      | some v =>
        rw [hopt, hf'] at hsome
        simp at hsome
    have hbind : bindStage
        { applyAnns (Initializer.new forced) gs with should_exit := true }
        (connectStage ps fd forced)
        = .ok (mandatoryBinds (applyAnns (Initializer.new forced) gs).global_names,
               connectStage ps fd forced) := by
      unfold bindStage
      dsimp only
      rw [hmiss, hnone]
    have hcid : ({ applyAnns (Initializer.new forced) gs with should_exit := true }
        : Initializer).callback_id = 7 := by
      unfold Initializer.callback_id
      dsimp only
      rw [hnone]
      rfl
    have hfin : finishInit
        { applyAnns (Initializer.new forced) gs with should_exit := true }
        (connectStage ps fd forced) [deleteMsg 7]
        = (mandatoryBinds (applyAnns (Initializer.new forced) gs).global_names
            ++ [.sync 7],
           .ok ({ applyAnns (Initializer.new forced) gs with should_exit := true },
                connectStage ps fd forced, [])) := by
      unfold finishInit
      rw [hbind]
      dsimp only
      rw [hcid]
      rw [phase2Loop_delete 7 7 _ _ rfl (by dsimp only; rw [hnone]; rfl)]
    have hfinal : init forced fd ps (gs.map annMsg
        ++ [deleteMsg 3, deleteMsg (if hasFrac gs then 8 else 7)])
        = .ok { applyAnns (Initializer.new forced) gs with should_exit := true }
            (connectStage ps fd forced)
            ([.getRegistry, .sync 3]
              ++ (mandatoryBinds (applyAnns (Initializer.new forced) gs).global_names
                  ++ [.sync 7]))
            [] := by
      have hifcid : (if hasFrac gs then 8 else 7 : Nat) = 7 := by rw [hf']; rfl
      unfold init
      rw [if_neg (by simp [hps]), hifcid]
      rw [hphase1 [deleteMsg 7]]
      dsimp only
      rw [hfin]
    rw [hfinal]
    constructor
    · rfl
    · simp [InitOutcome.requests, bindPairs, mandatoryBinds]

theorem mandatory_binds_order_independent_witness :
    initialProc.initialized = false ∧
    (∀ g ∈ ([⟨13, "zwlr_layer_shell_v1", 3⟩, ⟨10, "wl_compositor", 4⟩,
        ⟨12, "wp_viewporter", 1⟩, ⟨11, "wl_shm", 1⟩] : List GlobalAnn), goodAnn g) ∧
    (∀ s ∈ REQUIRED_GLOBALS, ∃ g ∈ ([⟨13, "zwlr_layer_shell_v1", 3⟩,
        ⟨10, "wl_compositor", 4⟩, ⟨12, "wp_viewporter", 1⟩,
        ⟨11, "wl_shm", 1⟩] : List GlobalAnn), g.interface = s) ∧
    bindPairs (init none 5 initialProc
        (([⟨13, "zwlr_layer_shell_v1", 3⟩, ⟨10, "wl_compositor", 4⟩,
           ⟨12, "wp_viewporter", 1⟩, ⟨11, "wl_shm", 1⟩] : List GlobalAnn).map annMsg
          ++ [deleteMsg 3, deleteMsg (if hasFrac [⟨13, "zwlr_layer_shell_v1", 3⟩,
              ⟨10, "wl_compositor", 4⟩, ⟨12, "wp_viewporter", 1⟩,
              ⟨11, "wl_shm", 1⟩] then 8 else 7)])).requests
      = [(3, "wl_compositor"), (4, "wl_shm"), (5, "wp_viewporter"),
         (6, "zwlr_layer_shell_v1")] :=
  ⟨rfl, by decide, by decide,
   (mandatory_binds_order_independent none 5 initialProc
      [⟨13, "zwlr_layer_shell_v1", 3⟩, ⟨10, "wl_compositor", 4⟩,
       ⟨12, "wp_viewporter", 1⟩, ⟨11, "wl_shm", 1⟩] rfl (by decide) (by decide)).2⟩
